import Mathlib

/-!
# Verification of the inbound message loop of go-libp2p-kad-dht

This development is a shallow embedding of `handleNewStream` /
`handleNewMessage` from `dht_net.go`, together with the instrumentation
calls of `metrics/metrics.go` that the loop makes.

The Go loop interacts with its surroundings through a handful of calls
whose results are external to the shown code: `dht.getMode()`,
`r.ReadMsg()` (msgio varint reader), `req.Unmarshal` (protobuf),
`dht.handlerForMsgType`, the handler itself, `net.WriteMsg`, and the
idle timer.  The embedding makes those results explicit:

* per-iteration inputs (`IterInput`): the mode observed by `getMode`,
  the outcome of `ReadMsg`, and whether `WriteMsg` would fail this
  iteration;
* a session environment (`DHTEnv`): the unmarshal function, the handler
  registry `handlerForMsgType`, and whether `onRequestHook` is set.

Every externally visible action of an iteration (metric counter adds,
the latency histogram record, the `onRequestHook` call, `timer.Reset`,
and the `net.WriteMsg` call) is emitted into an event trace in source
order.  Debug logging is observational only and is not modelled.
`stepIter` is the body of the `for` loop of `handleNewMessage`, one
iteration; `handleNewMessage` folds it over a list of iteration inputs
(the list running out models a session still blocked on its next read,
reported as `none`).
-/

namespace DhtNet

/-- operating modes of the node; `handleNewMessage` only compares the
current mode against `modeServer`. -/
inductive Mode
  | client
  | server
  | auto
  deriving DecidableEq, Repr

/-- message types of `pb.Message_MessageType`. -/
inductive MsgType
  | putValue
  | getValue
  | addProvider
  | getProviders
  | findNode
  | ping
  deriving DecidableEq, Repr

/-- string rendering of a message type, as `req.GetType().String()`
produces it for the `message_type` attribute. -/
def MsgType.string : MsgType → String
  | MsgType.putValue => "PUT_VALUE"
  | MsgType.getValue => "GET_VALUE"
  | MsgType.addProvider => "ADD_PROVIDER"
  | MsgType.getProviders => "GET_PROVIDERS"
  | MsgType.findNode => "FIND_NODE"
  | MsgType.ping => "PING"

/-- the attribute value used when no message type is available
(read error with bytes, or unmarshal failure). -/
def unknownTag : String := "UNKNOWN"

/-- a decoded `pb.Message`: its type tag and key (other payload fields
never influence the loop). -/
structure Message where
  type : MsgType
  key : List Nat
  deriving DecidableEq, Repr

/-- result of one `r.ReadMsg()` call: a successful frame, end of stream
(`err == io.EOF`), or any other read error; in the error cases
`msgbytes` holds whatever bytes were obtained before the error. -/
inductive ReadResult
  | ok (msgbytes : List Nat)
  | eof (msgbytes : List Nat)
  | ioError (msgbytes : List Nat)
  deriving DecidableEq, Repr

/-- result of invoking a registered handler: an optional response
message and whether the handler reported an error. -/
structure HandlerResult where
  resp : Option Message
  err : Bool

/-- the external collaborators fixed for the whole session. -/
structure DHTEnv where
  unmarshal : List Nat → Option Message
  handlerForMsgType : MsgType → Option (Message → HandlerResult)
  hookInstalled : Bool

/-- idle timeout `dhtStreamIdleTimeout = 1 * time.Minute`, in
nanoseconds (Go `time.Duration` units). -/
def dhtStreamIdleTimeout : Nat := 60000000000

/-- externally visible actions of the loop, in source order: metric
counter adds (amounting to 1, or to the byte count for
`ReceivedBytes`), the latency histogram record, the request hook call,
`timer.Reset d`, and the `net.WriteMsg` call with its outcome. -/
inductive Event
  | receivedMessages (tag : String)
  | receivedMessageErrors (tag : String)
  | receivedBytes (n : Nat) (tag : String)
  | inboundRequestLatency (tag : String)
  | onRequestHookCall
  | timerReset (d : Nat)
  | writeMsg (ok : Bool)
  deriving DecidableEq, Repr

/-- whether the loop body returns (with the orderly flag) or falls
through to the next iteration (`continue` or end of body). -/
inductive StepOutcome
  | halt (orderly : Bool)
  | cont
  deriving DecidableEq, Repr

/-- one iteration's external inputs: the mode `dht.getMode()` returns,
the `ReadMsg` outcome, and whether `net.WriteMsg` would fail if
called this iteration. -/
structure IterInput where
  mode : Mode
  read : ReadResult
  writeErr : Bool
  deriving Repr

/-- one iteration of the `for` loop of `handleNewMessage`
(dht_net.go lines 45-161), with the emitted events in source order. -/
def stepIter (env : DHTEnv) (it : IterInput) : StepOutcome × List Event :=
  if it.mode ≠ Mode.server then
    (StepOutcome.halt false, [])
  else
    match it.read with
    | ReadResult.eof _ => (StepOutcome.halt true, [])
    | ReadResult.ioError msgbytes =>
        if msgbytes.length > 0 then
          (StepOutcome.halt false,
            [Event.receivedMessages unknownTag,
             Event.receivedMessageErrors unknownTag,
             Event.receivedBytes msgbytes.length unknownTag])
        else
          (StepOutcome.halt false, [])
    | ReadResult.ok msgbytes =>
        match env.unmarshal msgbytes with
        | none =>
            (StepOutcome.halt false,
              [Event.receivedMessages unknownTag,
               Event.receivedMessageErrors unknownTag,
               Event.receivedBytes msgbytes.length unknownTag])
        | some req =>
            let tag := req.type.string
            let preEvents :=
              [Event.timerReset dhtStreamIdleTimeout,
               Event.receivedMessages tag,
               Event.receivedBytes msgbytes.length tag]
              ++ (if env.hookInstalled then [Event.onRequestHookCall] else [])
            match env.handlerForMsgType req.type with
            | none =>
                (StepOutcome.halt false,
                  preEvents ++ [Event.receivedMessageErrors tag])
            | some handler =>
                let hr := handler req
                if hr.err then
                  (StepOutcome.halt false,
                    preEvents ++ [Event.receivedMessageErrors tag])
                else
                  match hr.resp with
                  | none => (StepOutcome.cont, preEvents)
                  | some _ =>
                      if it.writeErr then
                        (StepOutcome.halt false,
                          preEvents ++ [Event.writeMsg false,
                                        Event.receivedMessageErrors tag])
                      else
                        (StepOutcome.cont,
                          preEvents ++ [Event.writeMsg true,
                                        Event.inboundRequestLatency tag])

/-- the session loop of `handleNewMessage`: fold `stepIter` over the
iteration inputs; `some b` is the loop's return value `b`, `none`
means the input list ran out with the loop still going (blocked on the
next read). -/
def handleNewMessage (env : DHTEnv) : List IterInput → Option Bool × List Event
  | [] => (none, [])
  | it :: rest =>
      match stepIter env it with
      | (StepOutcome.halt b, evs) => (some b, evs)
      | (StepOutcome.cont, evs) =>
          let r := handleNewMessage env rest
          (r.1, evs ++ r.2)

/-- terminal disposition of the stream chosen by `handleNewStream`. -/
inductive StreamFate
  | closed
  | reset
  deriving DecidableEq, Repr

/-- `handleNewStream` (dht_net.go lines 25-33): close the stream
gracefully when `handleNewMessage` returns true, reset it forcibly
when it returns false. -/
def handleNewStream (env : DHTEnv) (ins : List IterInput) :
    Option StreamFate × List Event :=
  match handleNewMessage env ins with
  | (some true, evs) => (some StreamFate.closed, evs)
  | (some false, evs) => (some StreamFate.reset, evs)
  | (none, evs) => (none, evs)

/-- whether an event is a `ReceivedMessages` counter add. -/
def Event.isReceived : Event → Bool
  | Event.receivedMessages _ => true
  | _ => false

/-- whether an event is a `ReceivedMessageErrors` counter add. -/
def Event.isReceivedError : Event → Bool
  | Event.receivedMessageErrors _ => true
  | _ => false

/-- whether an event is a `ReceivedBytes` counter add. -/
def Event.isReceivedBytes : Event → Bool
  | Event.receivedBytes _ _ => true
  | _ => false

/-- whether an event is an `InboundRequestLatency` histogram record. -/
def Event.isLatency : Event → Bool
  | Event.inboundRequestLatency _ => true
  | _ => false

/-- whether an event is a `timer.Reset` call. -/
def Event.isTimerReset : Event → Bool
  | Event.timerReset _ => true
  | _ => false

/-- whether an event is a `net.WriteMsg` call (either outcome). -/
def Event.isWrite : Event → Bool
  | Event.writeMsg _ => true
  | _ => false

/-- whether an event is a successful `net.WriteMsg` call. -/
def Event.isWriteSuccess : Event → Bool
  | Event.writeMsg true => true
  | _ => false

/-- whether this iteration reads a frame and decodes it successfully
(the condition under which the loop reaches `timer.Reset`). -/
def decodedSuccessfully (env : DHTEnv) (it : IterInput) : Bool :=
  if it.mode = Mode.server then
    match it.read with
    | ReadResult.ok msgbytes => (env.unmarshal msgbytes).isSome
    | _ => false
  else false

/-- whether this iteration decodes successfully and then fails at
dispatch: no registered handler, a handler error, or a failed
response write. -/
def dispatchFails (env : DHTEnv) (it : IterInput) : Bool :=
  if it.mode = Mode.server then
    match it.read with
    | ReadResult.ok msgbytes =>
        match env.unmarshal msgbytes with
        | some req =>
            match env.handlerForMsgType req.type with
            | none => true
            | some handler =>
                let hr := handler req
                if hr.err then true
                else
                  match hr.resp with
                  | some _ => it.writeErr
                  | none => false
        | none => false
    | _ => false
  else false

/-- events emitted between a successful decode and the dispatch: the
watchdog rearm, the two receipt counters, and the optional hook call. -/
def preEvents (env : DHTEnv) (tag : String) (len : Nat) : List Event :=
  [Event.timerReset dhtStreamIdleTimeout,
   Event.receivedMessages tag,
   Event.receivedBytes len tag]
  ++ (if env.hookInstalled then [Event.onRequestHookCall] else [])

section UnfoldingLemmas

variable {env : DHTEnv} {it : IterInput}

theorem stepIter_not_server (h : it.mode ≠ Mode.server) :
    stepIter env it = (StepOutcome.halt false, []) := by
  simp [stepIter, h]

theorem stepIter_eof {bs : List Nat} (h1 : it.mode = Mode.server)
    (h2 : it.read = ReadResult.eof bs) :
    stepIter env it = (StepOutcome.halt true, []) := by
  simp [stepIter, h1, h2]

theorem stepIter_ioError {bs : List Nat} (h1 : it.mode = Mode.server)
    (h2 : it.read = ReadResult.ioError bs) :
    stepIter env it =
      (StepOutcome.halt false,
       if bs.length > 0 then
         [Event.receivedMessages unknownTag,
          Event.receivedMessageErrors unknownTag,
          Event.receivedBytes bs.length unknownTag]
       else []) := by
  simp only [stepIter, h1, h2, ne_eq, not_true_eq_false, if_false]
  split <;> simp

theorem stepIter_decodeFail {bs : List Nat} (h1 : it.mode = Mode.server)
    (h2 : it.read = ReadResult.ok bs) (h3 : env.unmarshal bs = none) :
    stepIter env it =
      (StepOutcome.halt false,
       [Event.receivedMessages unknownTag,
        Event.receivedMessageErrors unknownTag,
        Event.receivedBytes bs.length unknownTag]) := by
  simp [stepIter, h1, h2, h3]

theorem stepIter_noHandler {bs : List Nat} {req : Message}
    (h1 : it.mode = Mode.server) (h2 : it.read = ReadResult.ok bs)
    (h3 : env.unmarshal bs = some req)
    (h4 : env.handlerForMsgType req.type = none) :
    stepIter env it =
      (StepOutcome.halt false,
       preEvents env req.type.string bs.length
         ++ [Event.receivedMessageErrors req.type.string]) := by
  simp [stepIter, h1, h2, h3, h4, preEvents]

theorem stepIter_handlerErr {bs : List Nat} {req : Message}
    {f : Message → HandlerResult}
    (h1 : it.mode = Mode.server) (h2 : it.read = ReadResult.ok bs)
    (h3 : env.unmarshal bs = some req)
    (h4 : env.handlerForMsgType req.type = some f)
    (h5 : (f req).err = true) :
    stepIter env it =
      (StepOutcome.halt false,
       preEvents env req.type.string bs.length
         ++ [Event.receivedMessageErrors req.type.string]) := by
  simp [stepIter, h1, h2, h3, h4, h5, preEvents]

theorem stepIter_respNone {bs : List Nat} {req : Message}
    {f : Message → HandlerResult}
    (h1 : it.mode = Mode.server) (h2 : it.read = ReadResult.ok bs)
    (h3 : env.unmarshal bs = some req)
    (h4 : env.handlerForMsgType req.type = some f)
    (h5 : (f req).err = false) (h6 : (f req).resp = none) :
    stepIter env it =
      (StepOutcome.cont, preEvents env req.type.string bs.length) := by
  simp [stepIter, h1, h2, h3, h4, h5, h6, preEvents]

theorem stepIter_respSome_writeErr {bs : List Nat} {req m : Message}
    {f : Message → HandlerResult}
    (h1 : it.mode = Mode.server) (h2 : it.read = ReadResult.ok bs)
    (h3 : env.unmarshal bs = some req)
    (h4 : env.handlerForMsgType req.type = some f)
    (h5 : (f req).err = false) (h6 : (f req).resp = some m)
    (h7 : it.writeErr = true) :
    stepIter env it =
      (StepOutcome.halt false,
       preEvents env req.type.string bs.length
         ++ [Event.writeMsg false,
             Event.receivedMessageErrors req.type.string]) := by
  simp [stepIter, h1, h2, h3, h4, h5, h6, h7, preEvents]

theorem stepIter_respSome_writeOk {bs : List Nat} {req m : Message}
    {f : Message → HandlerResult}
    (h1 : it.mode = Mode.server) (h2 : it.read = ReadResult.ok bs)
    (h3 : env.unmarshal bs = some req)
    (h4 : env.handlerForMsgType req.type = some f)
    (h5 : (f req).err = false) (h6 : (f req).resp = some m)
    (h7 : it.writeErr = false) :
    stepIter env it =
      (StepOutcome.cont,
       preEvents env req.type.string bs.length
         ++ [Event.writeMsg true,
             Event.inboundRequestLatency req.type.string]) := by
  simp [stepIter, h1, h2, h3, h4, h5, h6, h7, preEvents]

theorem handleNewMessage_cons_halt {rest : List IterInput} {b : Bool}
    {evs : List Event} (h : stepIter env it = (StepOutcome.halt b, evs)) :
    handleNewMessage env (it :: rest) = (some b, evs) := by
  simp [handleNewMessage, h]

theorem handleNewMessage_cons_cont {rest : List IterInput}
    {evs : List Event} (h : stepIter env it = (StepOutcome.cont, evs)) :
    handleNewMessage env (it :: rest) =
      ((handleNewMessage env rest).1, evs ++ (handleNewMessage env rest).2) := by
  simp [handleNewMessage, h]

end UnfoldingLemmas

/-- a PING message used as a concrete input in witnesses. -/
def msgPing : Message := { type := MsgType.ping, key := [] }

/-- a FIND_NODE message used as a concrete input in witnesses. -/
def msgFindNode : Message := { type := MsgType.findNode, key := [1] }

/-- a concrete environment for witnesses: byte `7` decodes to PING,
byte `8` to FIND_NODE, everything else fails to decode; PING's handler
answers with an empty-but-present response, FIND_NODE has no handler. -/
def pingEnv : DHTEnv :=
  { unmarshal := fun bs =>
      if bs = [7] then some msgPing
      else if bs = [8] then some msgFindNode
      else none,
    handlerForMsgType := fun t =>
      if t = MsgType.ping then
        some (fun _ => { resp := some msgPing, err := false })
      else none,
    hookInstalled := false }

/-- C1: whenever `handleNewStream` processes an inbound stream, it
closes the stream gracefully if and only if `handleNewMessage` returns
true, and forcibly resets it if and only if `handleNewMessage` returns
false; the fate is a single value, so exactly one of close/reset
happens per terminated stream and never the reverse mapping. -/
theorem c1_close_iff_orderly (env : DHTEnv) (ins : List IterInput) :
    ((handleNewStream env ins).1 = some StreamFate.closed
       ↔ (handleNewMessage env ins).1 = some true)
    ∧ ((handleNewStream env ins).1 = some StreamFate.reset
       ↔ (handleNewMessage env ins).1 = some false) := by
  cases h : handleNewMessage env ins with
  | mk r evs =>
      cases r with
      | none => simp [handleNewStream, h]
      | some b => cases b <;> simp [handleNewStream, h]

/-- C2: the mode flag is checked before any read is attempted: when the
observed mode is not server mode the iteration emits no event at all —
in particular nothing of the buffered read is processed, whatever
`it.read` holds — and the session terminates at once with `false`
(Aborted), regardless of the remaining buffered input. -/
theorem c2_mode_gate (env : DHTEnv) (it : IterInput) (rest : List IterInput)
    (h : it.mode ≠ Mode.server) :
    stepIter env it = (StepOutcome.halt false, [])
    ∧ handleNewMessage env (it :: rest) = (some false, []) :=
  ⟨stepIter_not_server h, handleNewMessage_cons_halt (stepIter_not_server h)⟩

/-- C2 witness: a mode toggled to client with a valid PING frame already
buffered — the frame is not processed and the session aborts. -/
theorem c2_mode_gate_witness :
    stepIter pingEnv
        { mode := Mode.client, read := ReadResult.ok [7], writeErr := false }
      = (StepOutcome.halt false, [])
    ∧ handleNewMessage pingEnv
        [{ mode := Mode.client, read := ReadResult.ok [7], writeErr := false }]
      = (some false, []) :=
  c2_mode_gate pingEnv
    { mode := Mode.client, read := ReadResult.ok [7], writeErr := false }
    [] (by decide)

/-- C3: a clean end-of-stream (`err == io.EOF`) with zero bytes pending
terminates the session with `true` (ClosedOrderly) and emits no event —
in particular no counter increment of any kind — for that iteration. -/
theorem c3_clean_eof (env : DHTEnv) (it : IterInput) (rest : List IterInput)
    (h1 : it.mode = Mode.server) (h2 : it.read = ReadResult.eof []) :
    handleNewMessage env (it :: rest) = (some true, []) :=
  handleNewMessage_cons_halt (stepIter_eof h1 h2)

/-- C3 witness: a server-mode iteration hitting clean end-of-stream. -/
theorem c3_clean_eof_witness :
    handleNewMessage pingEnv
        [{ mode := Mode.server, read := ReadResult.eof [], writeErr := false }]
      = (some true, []) :=
  c3_clean_eof pingEnv
    { mode := Mode.server, read := ReadResult.eof [], writeErr := false }
    [] rfl rfl

/-- C4: a read error other than clean end-of-stream terminates the
session with `false` (Aborted) in all cases; when a non-zero number of
payload bytes was obtained first, the iteration emits exactly one
received count, one received-error count, and a received-bytes count
equal to the partial payload length, all tagged "UNKNOWN"; with zero
bytes it emits nothing. -/
theorem c4_read_error (env : DHTEnv) (it : IterInput) (rest : List IterInput)
    (bs : List Nat) (h1 : it.mode = Mode.server)
    (h2 : it.read = ReadResult.ioError bs) :
    handleNewMessage env (it :: rest)
      = (some false,
         if bs.length > 0 then
           [Event.receivedMessages unknownTag,
            Event.receivedMessageErrors unknownTag,
            Event.receivedBytes bs.length unknownTag]
         else []) :=
  handleNewMessage_cons_halt (stepIter_ioError h1 h2)

/-- C4 witness: a read error after two partial payload bytes. -/
theorem c4_read_error_witness :
    handleNewMessage pingEnv
        [{ mode := Mode.server, read := ReadResult.ioError [5, 6],
           writeErr := false }]
      = (some false,
         [Event.receivedMessages unknownTag,
          Event.receivedMessageErrors unknownTag,
          Event.receivedBytes 2 unknownTag]) := by
  have h := c4_read_error pingEnv
    { mode := Mode.server, read := ReadResult.ioError [5, 6], writeErr := false }
    [] [5, 6] rfl rfl
  simpa using h

/-- C5: a frame read successfully whose payload fails to unmarshal makes
the iteration emit the "UNKNOWN"-tagged received / received-error /
received-bytes triple (bytes equal to the frame length) and terminates
the session with `false` (Aborted) at once, for any remaining buffered
input — the frame is never retried and the session never
resynchronizes. -/
theorem c5_decode_failure (env : DHTEnv) (it : IterInput)
    (rest : List IterInput) (bs : List Nat) (h1 : it.mode = Mode.server)
    (h2 : it.read = ReadResult.ok bs) (h3 : env.unmarshal bs = none) :
    handleNewMessage env (it :: rest)
      = (some false,
         [Event.receivedMessages unknownTag,
          Event.receivedMessageErrors unknownTag,
          Event.receivedBytes bs.length unknownTag]) :=
  handleNewMessage_cons_halt (stepIter_decodeFail h1 h2 h3)

/-- C5 witness: a one-byte frame that fails to decode, with a valid
frame still buffered behind it that is never processed. -/
theorem c5_decode_failure_witness :
    handleNewMessage pingEnv
        [{ mode := Mode.server, read := ReadResult.ok [9], writeErr := false },
         { mode := Mode.server, read := ReadResult.ok [7], writeErr := false }]
      = (some false,
         [Event.receivedMessages unknownTag,
          Event.receivedMessageErrors unknownTag,
          Event.receivedBytes 1 unknownTag]) := by
  have h := c5_decode_failure pingEnv
    { mode := Mode.server, read := ReadResult.ok [9], writeErr := false }
    [{ mode := Mode.server, read := ReadResult.ok [7], writeErr := false }]
    [9] rfl rfl (by decide)
  simpa using h

/-- C6: the idle watchdog is rearmed with the full idle-timeout
duration exactly in the iterations whose frame is both read and
decoded successfully — the rearm count is 1 for such an iteration and
0 otherwise — and the rearm is the iteration's very first externally
visible action, before the receipt counters, the hook call, any
handler lookup or invocation, and any response write, hence
independent of whether those later steps fail. -/
theorem c6_watchdog_rearm (env : DHTEnv) (it : IterInput) :
    (stepIter env it).2.countP Event.isTimerReset
      = (if decodedSuccessfully env it then 1 else 0)
    ∧ ((stepIter env it).2.head?
         = some (Event.timerReset dhtStreamIdleTimeout)
       ↔ decodedSuccessfully env it = true) := by
  by_cases hm : it.mode = Mode.server
  · cases hr : it.read with
    | eof bs =>
        rw [stepIter_eof hm hr]
        simp [decodedSuccessfully, hm, hr]
    | ioError bs =>
        rw [stepIter_ioError hm hr]
        by_cases hb : bs.length > 0 <;>
          simp [decodedSuccessfully, hm, hr, hb, Event.isTimerReset]
    | ok bs =>
        cases hu : env.unmarshal bs with
        | none =>
            rw [stepIter_decodeFail hm hr hu]
            simp [decodedSuccessfully, hm, hr, hu, Event.isTimerReset]
        | some req =>
            have hd : decodedSuccessfully env it = true := by
              simp [decodedSuccessfully, hm, hr, hu]
            cases hh : env.handlerForMsgType req.type with
            | none =>
                rw [stepIter_noHandler hm hr hu hh]
                cases hhook : env.hookInstalled <;>
                  simp [preEvents, hd, hhook, Event.isTimerReset]
            | some f =>
                cases herr : (f req).err with
                | true =>
                    rw [stepIter_handlerErr hm hr hu hh herr]
                    cases hhook : env.hookInstalled <;>
                      simp [preEvents, hd, hhook, Event.isTimerReset]
                | false =>
                    cases hresp : (f req).resp with
                    | none =>
                        rw [stepIter_respNone hm hr hu hh herr hresp]
                        cases hhook : env.hookInstalled <;>
                          simp [preEvents, hd, hhook, Event.isTimerReset]
                    | some m =>
                        cases hw : it.writeErr with
                        | true =>
                            rw [stepIter_respSome_writeErr hm hr hu hh herr
                                  hresp hw]
                            cases hhook : env.hookInstalled <;>
                              simp [preEvents, hd, hhook, Event.isTimerReset]
                        | false =>
                            rw [stepIter_respSome_writeOk hm hr hu hh herr
                                  hresp hw]
                            cases hhook : env.hookInstalled <;>
                              simp [preEvents, hd, hhook, Event.isTimerReset]
  · rw [stepIter_not_server hm]
    simp [decodedSuccessfully, hm]

theorem handleNewMessage_cons_of_cont {env : DHTEnv} {it : IterInput}
    {rest : List IterInput} (hc : (stepIter env it).1 = StepOutcome.cont) :
    handleNewMessage env (it :: rest)
      = ((handleNewMessage env rest).1,
         (stepIter env it).2 ++ (handleNewMessage env rest).2) := by
  rcases hs : stepIter env it with ⟨o, evs⟩
  rw [hs] at hc
  simp only at hc
  subst hc
  simp [handleNewMessage_cons_cont hs, hs]

/-- C7: a successfully decoded message makes the iteration emit, right
after the watchdog rearm and before any dispatch activity, exactly one
received count and exactly one received-bytes count equal to the
frame's byte length, both tagged with the message's declared type —
the remainder of the iteration emits no further received or
received-bytes event whatever the handler lookup, invocation, or
response write do — and an iteration whose body runs to the end
continues the session loop on the remaining frames of the stream. -/
theorem c7_receipt_instrumentation (env : DHTEnv) (it : IterInput)
    (rest : List IterInput) (bs : List Nat) (req : Message)
    (h1 : it.mode = Mode.server) (h2 : it.read = ReadResult.ok bs)
    (h3 : env.unmarshal bs = some req) :
    (stepIter env it).2.take 3
      = [Event.timerReset dhtStreamIdleTimeout,
         Event.receivedMessages req.type.string,
         Event.receivedBytes bs.length req.type.string]
    ∧ ((stepIter env it).2.drop 3).countP Event.isReceived = 0
    ∧ ((stepIter env it).2.drop 3).countP Event.isReceivedBytes = 0
    ∧ ((stepIter env it).1 = StepOutcome.cont →
        handleNewMessage env (it :: rest)
          = ((handleNewMessage env rest).1,
             (stepIter env it).2 ++ (handleNewMessage env rest).2)) := by
  refine ⟨?_, ?_, ?_, fun hc => handleNewMessage_cons_of_cont hc⟩ <;>
  · cases hh : env.handlerForMsgType req.type with
    | none =>
        rw [stepIter_noHandler h1 h2 h3 hh]
        cases hhook : env.hookInstalled <;>
          simp [preEvents, hhook, Event.isReceived, Event.isReceivedBytes]
    | some f =>
        cases herr : (f req).err with
        | true =>
            rw [stepIter_handlerErr h1 h2 h3 hh herr]
            cases hhook : env.hookInstalled <;>
              simp [preEvents, hhook, Event.isReceived, Event.isReceivedBytes]
        | false =>
            cases hresp : (f req).resp with
            | none =>
                rw [stepIter_respNone h1 h2 h3 hh herr hresp]
                cases hhook : env.hookInstalled <;>
                  simp [preEvents, hhook, Event.isReceived,
                        Event.isReceivedBytes]
            | some m =>
                cases hw : it.writeErr with
                | true =>
                    rw [stepIter_respSome_writeErr h1 h2 h3 hh herr hresp hw]
                    cases hhook : env.hookInstalled <;>
                      simp [preEvents, hhook, Event.isReceived,
                            Event.isReceivedBytes]
                | false =>
                    rw [stepIter_respSome_writeOk h1 h2 h3 hh herr hresp hw]
                    cases hhook : env.hookInstalled <;>
                      simp [preEvents, hhook, Event.isReceived,
                            Event.isReceivedBytes]

/-- C7 witness: a PING frame whose handler answers with a response and
whose write succeeds; a second PING is still processed afterwards. -/
theorem c7_receipt_instrumentation_witness :
    (stepIter pingEnv
        { mode := Mode.server, read := ReadResult.ok [7],
          writeErr := false }).2.take 3
      = [Event.timerReset dhtStreamIdleTimeout,
         Event.receivedMessages msgPing.type.string,
         Event.receivedBytes 1 msgPing.type.string]
    ∧ ((stepIter pingEnv
          { mode := Mode.server, read := ReadResult.ok [7],
            writeErr := false }).2.drop 3).countP Event.isReceived = 0
    ∧ ((stepIter pingEnv
          { mode := Mode.server, read := ReadResult.ok [7],
            writeErr := false }).2.drop 3).countP Event.isReceivedBytes = 0
    ∧ ((stepIter pingEnv
          { mode := Mode.server, read := ReadResult.ok [7],
            writeErr := false }).1 = StepOutcome.cont →
        handleNewMessage pingEnv
            [{ mode := Mode.server, read := ReadResult.ok [7],
               writeErr := false },
             { mode := Mode.server, read := ReadResult.eof [],
               writeErr := false }]
          = ((handleNewMessage pingEnv
                [{ mode := Mode.server, read := ReadResult.eof [],
                   writeErr := false }]).1,
             (stepIter pingEnv
                { mode := Mode.server, read := ReadResult.ok [7],
                  writeErr := false }).2
               ++ (handleNewMessage pingEnv
                     [{ mode := Mode.server, read := ReadResult.eof [],
                        writeErr := false }]).2)) :=
  c7_receipt_instrumentation pingEnv
    { mode := Mode.server, read := ReadResult.ok [7], writeErr := false }
    [{ mode := Mode.server, read := ReadResult.eof [], writeErr := false }]
    [7] msgPing rfl rfl (by decide)

/-- C8: when dispatch of a successfully decoded message fails — no
registered handler, a handler error, or a failed response write — the
iteration emits exactly one received-error count, tagged with the
message's declared type, no successful write and no latency sample
ever happen, and the session terminates with `false` (Aborted) at
once, leaving any remaining buffered input unprocessed (no retry at
this layer). -/
theorem c8_dispatch_failure (env : DHTEnv) (it : IterInput)
    (rest : List IterInput) (bs : List Nat) (req : Message)
    (h1 : it.mode = Mode.server) (h2 : it.read = ReadResult.ok bs)
    (h3 : env.unmarshal bs = some req)
    (h4 : dispatchFails env it = true) :
    (stepIter env it).1 = StepOutcome.halt false
    ∧ (stepIter env it).2.countP Event.isReceivedError = 1
    ∧ Event.receivedMessageErrors req.type.string ∈ (stepIter env it).2
    ∧ (stepIter env it).2.countP Event.isWriteSuccess = 0
    ∧ (stepIter env it).2.countP Event.isLatency = 0
    ∧ handleNewMessage env (it :: rest) = (some false, (stepIter env it).2) := by
  have hlast : ∀ evs, stepIter env it = (StepOutcome.halt false, evs) →
      handleNewMessage env (it :: rest) = (some false, (stepIter env it).2) := by
    intro evs hs
    rw [handleNewMessage_cons_halt hs, hs]
  cases hh : env.handlerForMsgType req.type with
  | none =>
      have hs := stepIter_noHandler h1 h2 h3 hh
      refine ⟨?_, ?_, ?_, ?_, ?_, hlast _ hs⟩ <;>
        simp only [hs] <;>
        (cases hhook : env.hookInstalled <;>
          simp [preEvents, hhook, Event.isReceivedError,
                Event.isWriteSuccess, Event.isLatency])
  | some f =>
      have hfail : (f req).err = true
          ∨ ((f req).err = false ∧ (∃ m, (f req).resp = some m)
              ∧ it.writeErr = true) := by
        simp [dispatchFails, h1, h2, h3, hh] at h4
        cases herr : (f req).err with
        | true => exact Or.inl rfl
        | false =>
            simp only [herr, Bool.false_eq_true, if_false] at h4
            cases hresp : (f req).resp with
            | none => simp [hresp] at h4
            | some m =>
                simp [hresp, herr] at h4
                exact Or.inr ⟨rfl, ⟨m, rfl⟩, h4⟩
      rcases hfail with herr | ⟨herr, ⟨m, hresp⟩, hw⟩
      · have hs := stepIter_handlerErr h1 h2 h3 hh herr
        refine ⟨?_, ?_, ?_, ?_, ?_, hlast _ hs⟩ <;>
          simp only [hs] <;>
          (cases hhook : env.hookInstalled <;>
            simp [preEvents, hhook, Event.isReceivedError,
                  Event.isWriteSuccess, Event.isLatency])
      · have hs := stepIter_respSome_writeErr h1 h2 h3 hh herr
          hresp hw
        refine ⟨?_, ?_, ?_, ?_, ?_, hlast _ hs⟩ <;>
          simp only [hs] <;>
          (cases hhook : env.hookInstalled <;>
            simp [preEvents, hhook, Event.isReceivedError,
                  Event.isWriteSuccess, Event.isLatency])

/-- C8 witness: a FIND_NODE frame (byte 8) whose type has no registered
handler in `pingEnv`; a further valid PING stays unprocessed. -/
theorem c8_dispatch_failure_witness :
    (stepIter pingEnv
        { mode := Mode.server, read := ReadResult.ok [8],
          writeErr := false }).1 = StepOutcome.halt false
    ∧ (stepIter pingEnv
        { mode := Mode.server, read := ReadResult.ok [8],
          writeErr := false }).2.countP Event.isReceivedError = 1
    ∧ Event.receivedMessageErrors msgFindNode.type.string
        ∈ (stepIter pingEnv
            { mode := Mode.server, read := ReadResult.ok [8],
              writeErr := false }).2
    ∧ (stepIter pingEnv
        { mode := Mode.server, read := ReadResult.ok [8],
          writeErr := false }).2.countP Event.isWriteSuccess = 0
    ∧ (stepIter pingEnv
        { mode := Mode.server, read := ReadResult.ok [8],
          writeErr := false }).2.countP Event.isLatency = 0
    ∧ handleNewMessage pingEnv
        [{ mode := Mode.server, read := ReadResult.ok [8],
           writeErr := false },
         { mode := Mode.server, read := ReadResult.ok [7],
           writeErr := false }]
      = (some false,
         (stepIter pingEnv
            { mode := Mode.server, read := ReadResult.ok [8],
              writeErr := false }).2) :=
  c8_dispatch_failure pingEnv
    { mode := Mode.server, read := ReadResult.ok [8], writeErr := false }
    [{ mode := Mode.server, read := ReadResult.ok [7], writeErr := false }]
    [8] msgFindNode rfl rfl (by decide) (by decide)

/-- C9: after a successful handler invocation the response write is
skipped exactly when the handler returned no response — a `none`
response continues the loop with no `WriteMsg` call at all, while any
present response, the empty message included, is written — and when
the write succeeds, exactly one latency sample tagged by the message
type is recorded as the iteration's final event before the loop
continues with the remaining frames. -/
theorem c9_response_write (env : DHTEnv) (it : IterInput)
    (rest : List IterInput) (bs : List Nat) (req : Message)
    (f : Message → HandlerResult)
    (h1 : it.mode = Mode.server) (h2 : it.read = ReadResult.ok bs)
    (h3 : env.unmarshal bs = some req)
    (h4 : env.handlerForMsgType req.type = some f)
    (h5 : (f req).err = false) :
    (stepIter env it).2.countP Event.isWrite
      = (if (f req).resp.isSome then 1 else 0)
    ∧ ((f req).resp = none →
        stepIter env it
          = (StepOutcome.cont, preEvents env req.type.string bs.length)
        ∧ (stepIter env it).2.countP Event.isLatency = 0)
    ∧ ((f req).resp.isSome = true → it.writeErr = false →
        stepIter env it
          = (StepOutcome.cont,
             preEvents env req.type.string bs.length
               ++ [Event.writeMsg true,
                   Event.inboundRequestLatency req.type.string])
        ∧ (stepIter env it).2.countP Event.isLatency = 1
        ∧ handleNewMessage env (it :: rest)
            = ((handleNewMessage env rest).1,
               (stepIter env it).2 ++ (handleNewMessage env rest).2)) := by
  refine ⟨?_, ?_, ?_⟩
  · cases hresp : (f req).resp with
    | none =>
        rw [stepIter_respNone h1 h2 h3 h4 h5 hresp]
        cases hhook : env.hookInstalled <;>
          simp [preEvents, hhook, Event.isWrite]
    | some m =>
        cases hw : it.writeErr with
        | true =>
            rw [stepIter_respSome_writeErr h1 h2 h3 h4 h5 hresp hw]
            cases hhook : env.hookInstalled <;>
              simp [preEvents, hhook, Event.isWrite]
        | false =>
            rw [stepIter_respSome_writeOk h1 h2 h3 h4 h5 hresp hw]
            cases hhook : env.hookInstalled <;>
              simp [preEvents, hhook, Event.isWrite]
  · intro hresp
    have hs := stepIter_respNone h1 h2 h3 h4 h5 hresp
    refine ⟨hs, ?_⟩
    rw [hs]
    cases hhook : env.hookInstalled <;>
      simp [preEvents, hhook, Event.isLatency]
  · intro hsome hw
    rcases Option.isSome_iff_exists.mp hsome with ⟨m, hresp⟩
    have hs := stepIter_respSome_writeOk h1 h2 h3 h4 h5 hresp hw
    refine ⟨hs, ?_, handleNewMessage_cons_of_cont (by rw [hs])⟩
    rw [hs]
    cases hhook : env.hookInstalled <;>
      simp [preEvents, hhook, Event.isLatency]

/-- C9 witness: the PING handler of `pingEnv` answers with an
empty-but-present response; it is written and one latency sample is
recorded before the loop reads the next frame. -/
theorem c9_response_write_witness :
    (stepIter pingEnv
        { mode := Mode.server, read := ReadResult.ok [7],
          writeErr := false }).2.countP Event.isWrite
      = (if (({ resp := some msgPing, err := false } : HandlerResult)).resp.isSome
         then 1 else 0)
    ∧ ((({ resp := some msgPing, err := false } : HandlerResult)).resp = none →
        stepIter pingEnv
            { mode := Mode.server, read := ReadResult.ok [7],
              writeErr := false }
          = (StepOutcome.cont, preEvents pingEnv msgPing.type.string 1)
        ∧ (stepIter pingEnv
            { mode := Mode.server, read := ReadResult.ok [7],
              writeErr := false }).2.countP Event.isLatency = 0)
    ∧ ((({ resp := some msgPing, err := false } : HandlerResult)).resp.isSome
          = true →
        ({ mode := Mode.server, read := ReadResult.ok [7],
           writeErr := false } : IterInput).writeErr = false →
        stepIter pingEnv
            { mode := Mode.server, read := ReadResult.ok [7],
              writeErr := false }
          = (StepOutcome.cont,
             preEvents pingEnv msgPing.type.string 1
               ++ [Event.writeMsg true,
                   Event.inboundRequestLatency msgPing.type.string])
        ∧ (stepIter pingEnv
            { mode := Mode.server, read := ReadResult.ok [7],
              writeErr := false }).2.countP Event.isLatency = 1
        ∧ handleNewMessage pingEnv
            [{ mode := Mode.server, read := ReadResult.ok [7],
               writeErr := false },
             { mode := Mode.server, read := ReadResult.eof [],
               writeErr := false }]
          = ((handleNewMessage pingEnv
                [{ mode := Mode.server, read := ReadResult.eof [],
                   writeErr := false }]).1,
             (stepIter pingEnv
                { mode := Mode.server, read := ReadResult.ok [7],
                  writeErr := false }).2
               ++ (handleNewMessage pingEnv
                     [{ mode := Mode.server, read := ReadResult.eof [],
                        writeErr := false }]).2)) :=
  c9_response_write pingEnv
    { mode := Mode.server, read := ReadResult.ok [7], writeErr := false }
    [{ mode := Mode.server, read := ReadResult.eof [], writeErr := false }]
    [7] msgPing (fun _ => { resp := some msgPing, err := false })
    rfl rfl (by decide) rfl rfl

theorem stepIter_err_spec (env : DHTEnv) (it : IterInput) :
    (stepIter env it).2.countP Event.isReceivedError ≤ 1
    ∧ ((stepIter env it).1 = StepOutcome.cont →
        (stepIter env it).2.countP Event.isReceivedError = 0)
    ∧ (1 ≤ (stepIter env it).2.countP Event.isReceivedError →
        (stepIter env it).1 = StepOutcome.halt false) := by
  by_cases hm : it.mode = Mode.server
  · cases hr : it.read with
    | eof bs =>
        rw [stepIter_eof hm hr]; simp
    | ioError bs =>
        rw [stepIter_ioError hm hr]
        by_cases hb : bs.length > 0 <;> simp [hb, Event.isReceivedError]
    | ok bs =>
        cases hu : env.unmarshal bs with
        | none =>
            rw [stepIter_decodeFail hm hr hu]
            simp [Event.isReceivedError]
        | some req =>
            cases hh : env.handlerForMsgType req.type with
            | none =>
                rw [stepIter_noHandler hm hr hu hh]
                cases hhook : env.hookInstalled <;>
                  simp [preEvents, hhook, Event.isReceivedError]
            | some f =>
                cases herr : (f req).err with
                | true =>
                    rw [stepIter_handlerErr hm hr hu hh herr]
                    cases hhook : env.hookInstalled <;>
                      simp [preEvents, hhook, Event.isReceivedError]
                | false =>
                    cases hresp : (f req).resp with
                    | none =>
                        rw [stepIter_respNone hm hr hu hh herr hresp]
                        cases hhook : env.hookInstalled <;>
                          simp [preEvents, hhook, Event.isReceivedError]
                    | some m =>
                        cases hw : it.writeErr with
                        | true =>
                            rw [stepIter_respSome_writeErr hm hr hu hh herr
                                  hresp hw]
                            cases hhook : env.hookInstalled <;>
                              simp [preEvents, hhook, Event.isReceivedError]
                        | false =>
                            rw [stepIter_respSome_writeOk hm hr hu hh herr
                                  hresp hw]
                            cases hhook : env.hookInstalled <;>
                              simp [preEvents, hhook, Event.isReceivedError]
  · rw [stepIter_not_server hm]; simp

theorem handleNewMessage_err_le_one (env : DHTEnv) (ins : List IterInput) :
    (handleNewMessage env ins).2.countP Event.isReceivedError ≤ 1 := by
  induction ins with
  | nil => simp [handleNewMessage]
  | cons it rest ih =>
      rcases hs : stepIter env it with ⟨o, evs⟩
      cases o with
      | halt b =>
          rw [handleNewMessage_cons_halt hs]
          have h := (stepIter_err_spec env it).1
          rw [hs] at h
          exact h
      | cont =>
          rw [handleNewMessage_cons_cont hs]
          have h0 := (stepIter_err_spec env it).2.1 (by rw [hs])
          rw [hs] at h0
          simp only [List.countP_append, h0, Nat.zero_add]
          exact ih

theorem handleNewMessage_err_one_aborts (env : DHTEnv)
    (ins : List IterInput)
    (h : 1 ≤ (handleNewMessage env ins).2.countP Event.isReceivedError) :
    (handleNewMessage env ins).1 = some false := by
  induction ins with
  | nil => simp [handleNewMessage] at h
  | cons it rest ih =>
      rcases hs : stepIter env it with ⟨o, evs⟩
      cases o with
      | halt b =>
          rw [handleNewMessage_cons_halt hs] at h ⊢
          have hb := (stepIter_err_spec env it).2.2
          rw [hs] at hb
          have hb2 : b = false := by
            have := hb h
            simpa using this
          simp [hb2]
      | cont =>
          rw [handleNewMessage_cons_cont hs] at h ⊢
          have h0 := (stepIter_err_spec env it).2.1 (by rw [hs])
          rw [hs] at h0
          simp only [List.countP_append, h0, Nat.zero_add] at h
          exact ih h

/-- C10: within one session the `ReceivedMessageErrors` counter is
incremented at most once; a session whose trace holds an increment
returns `false` (Aborted); an iteration that increments it is the
session's last — a continuing iteration never increments it, and an
incrementing iteration halts with `false` immediately; sessions ending
via the mode gate, via clean end-of-stream, or via a read error with
zero obtained payload bytes increment no error counter at all. -/
theorem c10_error_counter_at_most_once (env : DHTEnv)
    (ins : List IterInput) (it : IterInput) (bs : List Nat) :
    (handleNewMessage env ins).2.countP Event.isReceivedError ≤ 1
    ∧ (1 ≤ (handleNewMessage env ins).2.countP Event.isReceivedError →
        (handleNewMessage env ins).1 = some false)
    ∧ ((stepIter env it).1 = StepOutcome.cont →
        (stepIter env it).2.countP Event.isReceivedError = 0)
    ∧ (1 ≤ (stepIter env it).2.countP Event.isReceivedError →
        (stepIter env it).1 = StepOutcome.halt false)
    ∧ (it.mode ≠ Mode.server →
        (stepIter env it).2.countP Event.isReceivedError = 0)
    ∧ (it.mode = Mode.server → it.read = ReadResult.eof bs →
        (stepIter env it).2.countP Event.isReceivedError = 0)
    ∧ (it.mode = Mode.server → it.read = ReadResult.ioError [] →
        (stepIter env it).2.countP Event.isReceivedError = 0) :=
  ⟨handleNewMessage_err_le_one env ins,
   handleNewMessage_err_one_aborts env ins,
   (stepIter_err_spec env it).2.1,
   (stepIter_err_spec env it).2.2,
   fun hm => by rw [stepIter_not_server hm]; simp,
   fun hm hr => by rw [stepIter_eof hm hr]; simp,
   fun hm hr => by rw [stepIter_ioError hm hr]; simp⟩

/-- C10 witness: a session with one well-formed PING then a frame of an
unhandled type — a single error increment, in the final iteration. -/
theorem c10_error_counter_witness :
    (handleNewMessage pingEnv
        [{ mode := Mode.server, read := ReadResult.ok [7],
           writeErr := false },
         { mode := Mode.server, read := ReadResult.ok [8],
           writeErr := false }]).2.countP Event.isReceivedError ≤ 1
    ∧ (handleNewMessage pingEnv
        [{ mode := Mode.server, read := ReadResult.ok [7],
           writeErr := false },
         { mode := Mode.server, read := ReadResult.ok [8],
           writeErr := false }]).1 = some false
    ∧ (stepIter pingEnv
        { mode := Mode.server, read := ReadResult.eof [],
          writeErr := false }).2.countP Event.isReceivedError = 0 := by
  have h := c10_error_counter_at_most_once pingEnv
    [{ mode := Mode.server, read := ReadResult.ok [7], writeErr := false },
     { mode := Mode.server, read := ReadResult.ok [8], writeErr := false }]
    { mode := Mode.server, read := ReadResult.eof [], writeErr := false }
    []
  exact ⟨h.1, h.2.1 (by decide), h.2.2.2.2.2.1 rfl rfl⟩

end DhtNet
